import Mathlib

/-!
Shallow embedding of `pyowm/stationsapi30/stations_manager.py`.

The manager is a thin client over an HTTP transport: every public method
validates a few scalar parameters, builds a request (url, query parameters,
body, headers) and delegates to the HTTP client collaborator.  We embed each
method as a pure function returning the ordered trace of requests it issues
together with its outcome (`Except PyErr`).  The transport collaborator is
injected as a function from the call index and the request to a response, so
that properties such as "no network call is made" (empty trace) and
"the loop halts at the first transport failure" are directly expressible.
-/

set_option autoImplicit false

namespace Pyowm

/-- A scalar value occurring in query parameters or JSON bodies: Python
strings, ints, floats (modelled as rationals) and `None`. -/
inductive PV where
  | s (v : String)
  | i (v : Int)
  | q (v : Rat)
  | none
  deriving DecidableEq, Repr

/-- HTTP methods used by the manager. -/
inductive HMethod where
  | get
  | post
  | put
  | delete
  deriving DecidableEq, Repr

/-- One HTTP request as handed to the HTTP client collaborator:
method, url, query parameters, optional JSON body, headers. -/
structure Request where
  method : HMethod
  url : String
  params : List (String × PV)
  data : Option (List (String × PV))
  headers : List (String × String)
  deriving DecidableEq, Repr

/-- A decoded response body: a single JSON object, a JSON list, or nothing. -/
inductive Body (J : Type) where
  | item (j : J)
  | items (l : List J)
  | none
  deriving DecidableEq, Repr

/-- A transport-level error (connection failure, error status, ...). -/
abbrev TErr := String

/-- Modelled from the spec: the `HttpClient` collaborator (its code is not in
this repository) performs one HTTP request and returns a (status, decoded
body) pair or fails.  The `Nat` argument is the index of the call within the
current manager operation, so a transport double can fail at a chosen call. -/
structure Transport (J : Type) where
  respond : Nat → Request → Except TErr (Int × Body J)

/-- The errors a manager method can raise: Python `AssertionError`,
`ValueError` (with its message), a shape mismatch when iterating or parsing
a response body of the wrong kind, and propagated transport errors. -/
inductive PyErr where
  | assertionError
  | valueError (msg : String)
  | typeError
  | transportError (e : TErr)
  deriving DecidableEq, Repr

/-- Modelled from the spec: a `Station` record (the class is not in this
repository).  Fields mirror the attributes the manager reads:
`id`, `external_id`, `name`, `lat`, `lon`, `alt`; any of them may be null. -/
structure Station where
  id : Option String
  external_id : Option String
  name : Option String
  lat : Option Rat
  lon : Option Rat
  alt : Option Rat
  deriving DecidableEq, Repr

/-- Modelled from the spec: a `Measurement` (the class is not in this
repository) carries a possibly-null `station_id` and serializes through
`to_dict` to a flat key/value field map used as the post body. -/
structure Measurement where
  station_id : Option String
  fields : List (String × PV)
  deriving DecidableEq, Repr

/-- The field map a measurement serializes to (`Measurement.to_dict`). -/
def Measurement.to_dict (ms : Measurement) : List (String × PV) :=
  ms.fields

/-- A possibly-null string as a body value. -/
def optStrPV : Option String → PV
  | Option.none => PV.none
  | Option.some v => PV.s v

/-- A possibly-null number as a body value. -/
def optRatPV : Option Rat → PV
  | Option.none => PV.none
  | Option.some v => PV.q v

/-- The `alt` range check of `create_station`: a provided altitude is
rejected exactly when it is negative (`if alt is not None: if alt < 0.0`). -/
def altNegative : Option Rat → Bool
  | Option.none => false
  | Option.some a => decide (a < 0)

/-- The constant `Content-Type: application/json` headers sent on every call. -/
def jsonHeaders : List (String × String) :=
  [("Content-Type", "application/json")]

def stationsUrl : String :=
  "http://api.openweathermap.org/data/3.0/stations"

def measurementsUrl : String :=
  "http://api.openweathermap.org/data/3.0/measurements"

/-- The limit check of `get_measurements`: a provided limit passes exactly
when it is an int and non-negative
(`assert isinstance(limit, int); assert limit >= 0`). -/
def limitOk : PV → Bool
  | PV.i n => decide (0 ≤ n)
  | _ => false

/-- The manager: the API credential plus its three collaborators (the two
parsers, modelled as abstract pure functions on decoded JSON items, and the
HTTP client).  `J` is the type of decoded JSON items, `S` of parsed stations,
`A` of parsed aggregated measurements. -/
structure StationsManager (J S A : Type) where
  API_key : String
  stations_parse_dict : J → S
  aggregated_measurements_parse_dict : J → A
  http_client : Transport J

namespace StationsManager

variable {J S A : Type}

/-- The request issued by `get_stations`. -/
def listStationsRequest (m : StationsManager J S A) : Request :=
  { method := HMethod.get
    url := stationsUrl
    params := [("appid", PV.s m.API_key)]
    data := Option.none
    headers := jsonHeaders }

/-- `get_stations`: one GET on the stations url, then one parsed station per
item of the decoded response list, in order. -/
def get_stations (m : StationsManager J S A) :
    List Request × Except PyErr (List S) :=
  let req := m.listStationsRequest
  match m.http_client.respond 0 req with
  | Except.error e => ([req], Except.error (PyErr.transportError e))
  | Except.ok (_, Body.items l) => ([req], Except.ok (l.map m.stations_parse_dict))
  | Except.ok (_, _) => ([req], Except.error PyErr.typeError)

/-- The request issued by `get_station`. -/
def getStationRequest (m : StationsManager J S A) (id : String) : Request :=
  { method := HMethod.get
    url := stationsUrl ++ "/" ++ id
    params := [("appid", PV.s m.API_key)]
    data := Option.none
    headers := jsonHeaders }

/-- `get_station`: one GET on the station's url, response parsed as one
station. -/
def get_station (m : StationsManager J S A) (id : String) :
    List Request × Except PyErr S :=
  let req := m.getStationRequest id
  match m.http_client.respond 0 req with
  | Except.error e => ([req], Except.error (PyErr.transportError e))
  | Except.ok (_, Body.item j) => ([req], Except.ok (m.stations_parse_dict j))
  | Except.ok (_, _) => ([req], Except.error PyErr.typeError)

/-- The POST request issued by `create_station` once validation passed. -/
def createStationRequest (m : StationsManager J S A)
    (eid nm : String) (la lo : Rat) (alt : Option Rat) : Request :=
  { method := HMethod.post
    url := stationsUrl
    params := [("appid", PV.s m.API_key)]
    data := Option.some
      [("external_id", PV.s eid), ("name", PV.s nm), ("lat", PV.q la),
       ("lon", PV.q lo), ("alt", optRatPV alt)]
    headers := jsonHeaders }

/-- `create_station`: asserts `external_id`, `name`, `lon`, `lat` non-null,
range-checks `lon`, `lat` and (when non-null) `alt`, then posts the station
body and parses the returned payload. -/
def create_station (m : StationsManager J S A)
    (external_id name : Option String) (lat lon alt : Option Rat) :
    List Request × Except PyErr S :=
  match external_id with
  | Option.none => ([], Except.error PyErr.assertionError)
  | Option.some eid =>
  match name with
  | Option.none => ([], Except.error PyErr.assertionError)
  | Option.some nm =>
  match lon with
  | Option.none => ([], Except.error PyErr.assertionError)
  | Option.some lo =>
  match lat with
  | Option.none => ([], Except.error PyErr.assertionError)
  | Option.some la =>
  if lo < -180 ∨ lo > 180 then
    ([], Except.error (PyErr.valueError "lon value must be between -180 and 180"))
  else if la < -90 ∨ la > 90 then
    ([], Except.error (PyErr.valueError "lat value must be between -90 and 90"))
  else if altNegative alt then
    ([], Except.error (PyErr.valueError "alt value must not be negative"))
  else
    let req := m.createStationRequest eid nm la lo alt
    match m.http_client.respond 0 req with
    | Except.error e => ([req], Except.error (PyErr.transportError e))
    | Except.ok (_, Body.item j) => ([req], Except.ok (m.stations_parse_dict j))
    | Except.ok (_, _) => ([req], Except.error PyErr.typeError)

/-- The PUT request issued by `update_station` once validation passed. -/
def updateStationRequest (m : StationsManager J S A)
    (sid : String) (st : Station) : Request :=
  { method := HMethod.put
    url := stationsUrl ++ "/" ++ sid
    params := [("appid", PV.s m.API_key)]
    data := Option.some
      [("external_id", optStrPV st.external_id), ("name", optStrPV st.name),
       ("lat", optRatPV st.lat), ("lon", optRatPV st.lon),
       ("alt", optRatPV st.alt)]
    headers := jsonHeaders }

/-- `update_station`: asserts the station's `id` is non-null, then issues one
PUT carrying all the station's fields; returns `None` on success. -/
def update_station (m : StationsManager J S A) (station : Station) :
    List Request × Except PyErr Unit :=
  match station.id with
  | Option.none => ([], Except.error PyErr.assertionError)
  | Option.some sid =>
    let req := m.updateStationRequest sid station
    match m.http_client.respond 0 req with
    | Except.error e => ([req], Except.error (PyErr.transportError e))
    | Except.ok _ => ([req], Except.ok ())

/-- The DELETE request issued by `delete_station` once validation passed. -/
def deleteStationRequest (m : StationsManager J S A) (sid : String) : Request :=
  { method := HMethod.delete
    url := stationsUrl ++ "/" ++ sid
    params := [("appid", PV.s m.API_key)]
    data := Option.none
    headers := jsonHeaders }

/-- `delete_station`: asserts the station's `id` is non-null, then issues one
DELETE; returns `None` on success. -/
def delete_station (m : StationsManager J S A) (station : Station) :
    List Request × Except PyErr Unit :=
  match station.id with
  | Option.none => ([], Except.error PyErr.assertionError)
  | Option.some sid =>
    let req := m.deleteStationRequest sid
    match m.http_client.respond 0 req with
    | Except.error e => ([req], Except.error (PyErr.transportError e))
    | Except.ok _ => ([req], Except.ok ())

/-- The POST request carrying one measurement's field map. -/
def measurementRequest (m : StationsManager J S A) (ms : Measurement) :
    Request :=
  { method := HMethod.post
    url := measurementsUrl
    params := [("appid", PV.s m.API_key)]
    data := Option.some ms.to_dict
    headers := jsonHeaders }

/-- `send_measurement`: asserts the measurement and its `station_id` are
non-null, then issues one POST with the measurement's field map. -/
def send_measurement (m : StationsManager J S A)
    (measurement : Option Measurement) :
    List Request × Except PyErr Unit :=
  match measurement with
  | Option.none => ([], Except.error PyErr.assertionError)
  | Option.some ms =>
  match ms.station_id with
  | Option.none => ([], Except.error PyErr.assertionError)
  | Option.some _ =>
    let req := m.measurementRequest ms
    match m.http_client.respond 0 req with
    | Except.error e => ([req], Except.error (PyErr.transportError e))
    | Except.ok _ => ([req], Except.ok ())

/-- The posting loop shared by `send_measurements` and `send_buffer`: one
POST per measurement, in order; a transport failure stops the loop and
propagates, the failing request having been invoked. -/
def postLoop (m : StationsManager J S A) :
    Nat → List Measurement → List Request × Except PyErr Unit
  | _, [] => ([], Except.ok ())
  | idx, ms :: rest =>
    let req := m.measurementRequest ms
    match m.http_client.respond idx req with
    | Except.error e => ([req], Except.error (PyErr.transportError e))
    | Except.ok _ =>
      let r := m.postLoop (idx + 1) rest
      (req :: r.1, r.2)

/-- `send_measurements`: asserts the list is non-null and that every item's
`station_id` is non-null (up front, for the whole batch), then posts each
measurement independently, in list order. -/
def send_measurements (m : StationsManager J S A)
    (list_of_measurements : Option (List Measurement)) :
    List Request × Except PyErr Unit :=
  match list_of_measurements with
  | Option.none => ([], Except.error PyErr.assertionError)
  | Option.some l =>
    if l.all (fun ms => ms.station_id.isSome) then m.postLoop 0 l
    else ([], Except.error PyErr.assertionError)

/-- The GET request issued by `get_measurements` once validation passed:
`limit` joins the query only when it was provided. -/
def measurementsQuery (m : StationsManager J S A)
    (sid agg : String) (f t : Int) (limit : Option Int) : Request :=
  { method := HMethod.get
    url := measurementsUrl
    params := [("appid", PV.s m.API_key), ("station_id", PV.s sid),
               ("type", PV.s agg), ("from", PV.i f), ("to", PV.i t)] ++
      (match limit with
       | Option.none => []
       | Option.some n => [("limit", PV.i n)])
    data := Option.none
    headers := jsonHeaders }

/-- The network half of `get_measurements`: one GET, then one parsed
aggregated measurement per item of the decoded response list, in order. -/
def runMeasurementsQuery (m : StationsManager J S A)
    (sid agg : String) (f t : Int) (limit : Option Int) :
    List Request × Except PyErr (List A) :=
  let req := m.measurementsQuery sid agg f t limit
  match m.http_client.respond 0 req with
  | Except.error e => ([req], Except.error (PyErr.transportError e))
  | Except.ok (_, Body.items l) =>
    ([req], Except.ok (l.map m.aggregated_measurements_parse_dict))
  | Except.ok (_, _) => ([req], Except.error PyErr.typeError)

/-- `get_measurements`: asserts `station_id`, `aggregated_on` and both
timestamps non-null, both timestamps positive; raises `ValueError` when
`to_timestamp < from_timestamp`; asserts a provided `limit` is a non-negative
int; then issues the query.  A provided `limit` is a raw Python value
(`Option PV`) so that non-int limits are representable. -/
def get_measurements (m : StationsManager J S A)
    (station_id aggregated_on : Option String)
    (from_timestamp to_timestamp : Option Int) (limit : Option PV) :
    List Request × Except PyErr (List A) :=
  match station_id with
  | Option.none => ([], Except.error PyErr.assertionError)
  | Option.some sid =>
  match aggregated_on with
  | Option.none => ([], Except.error PyErr.assertionError)
  | Option.some agg =>
  match from_timestamp with
  | Option.none => ([], Except.error PyErr.assertionError)
  | Option.some f =>
  if f ≤ 0 then ([], Except.error PyErr.assertionError)
  else
  match to_timestamp with
  | Option.none => ([], Except.error PyErr.assertionError)
  | Option.some t =>
  if t ≤ 0 then ([], Except.error PyErr.assertionError)
  else if t < f then
    ([], Except.error
      (PyErr.valueError "End timestamp cant be earlier than begin timestamp"))
  else
  match limit with
  | Option.none => m.runMeasurementsQuery sid agg f t Option.none
  | Option.some (PV.i n) =>
    if n < 0 then ([], Except.error PyErr.assertionError)
    else m.runMeasurementsQuery sid agg f t (Option.some n)
  | Option.some _ => ([], Except.error PyErr.assertionError)

/-- `send_buffer`: asserts the buffer is non-null, then posts each contained
measurement independently, in order — with no per-item `station_id` check.
The `Buffer` collaborator is modelled from the spec as the ordered list of
measurements it contains, which is how the loop consumes it. -/
def send_buffer (m : StationsManager J S A)
    (buffer : Option (List Measurement)) :
    List Request × Except PyErr Unit :=
  match buffer with
  | Option.none => ([], Except.error PyErr.assertionError)
  | Option.some buf => m.postLoop 0 buf

end StationsManager

/-! ### Concrete collaborators used to instantiate the theorems -/

/-- A transport double that answers every call with an empty item list. -/
def okTransport : Transport Nat :=
  ⟨fun _ _ => Except.ok (200, Body.items [])⟩

/-- A transport double that fails at the call of index 1 and answers all
other calls. -/
def failAt1Transport : Transport Nat :=
  ⟨fun idx _ =>
    if idx = 1 then Except.error "boom" else Except.ok (200, Body.none)⟩

/-- A concrete manager over the always-answering transport double. -/
def mDemo : StationsManager Nat Nat Nat :=
  { API_key := "APIKEY"
    stations_parse_dict := id
    aggregated_measurements_parse_dict := id
    http_client := okTransport }

/-- A concrete manager over the transport double failing at call 1. -/
def mFail1 : StationsManager Nat Nat Nat :=
  { API_key := "APIKEY"
    stations_parse_dict := id
    aggregated_measurements_parse_dict := id
    http_client := failAt1Transport }

/-- A measurement with a station id. -/
def msA : Measurement :=
  { station_id := Option.some "st1", fields := [("dt", PV.i 150)] }

/-- Another measurement with a station id. -/
def msB : Measurement :=
  { station_id := Option.some "st2", fields := [("dt", PV.i 160)] }

/-- A measurement whose station id is null. -/
def msNull : Measurement :=
  { station_id := Option.none, fields := [("dt", PV.i 170)] }

/-- A request carries the manager's credential as its `appid` query
parameter. -/
def hasAppid {J S A : Type} (m : StationsManager J S A) (r : Request) : Prop :=
  ("appid", PV.s m.API_key) ∈ r.params

namespace StationsManager

variable {J S A : Type}

/-! ### Helper lemmas about the posting loop -/

/-- Every request the posting loop issues is the request of one of the
measurements of the list. -/
lemma mem_postLoop (m : StationsManager J S A) (l : List Measurement) :
    ∀ idx r, r ∈ (m.postLoop idx l).1 →
      ∃ ms, ms ∈ l ∧ r = m.measurementRequest ms := by
  induction l with
  | nil => intro idx r hr; simp [postLoop] at hr
  | cons ms rest ih =>
    intro idx r hr
    rcases hresp : m.http_client.respond idx (m.measurementRequest ms) with e | v
    · simp [postLoop, hresp] at hr
      exact ⟨ms, by simp, hr⟩
    · simp [postLoop, hresp] at hr
      rcases hr with hr | hr
      · exact ⟨ms, by simp, hr⟩
      · rcases ih (idx + 1) r hr with ⟨ms2, hmem, heq⟩
        exact ⟨ms2, by simp [hmem], heq⟩

/-- The posting loop never raises an `AssertionError`. -/
lemma postLoop_ne_assertion (m : StationsManager J S A) (l : List Measurement) :
    ∀ idx, (m.postLoop idx l).2 ≠ Except.error PyErr.assertionError := by
  induction l with
  | nil => intro idx; simp [postLoop]
  | cons ms rest ih =>
    intro idx
    rcases hresp : m.http_client.respond idx (m.measurementRequest ms) with e | v
    · simp [postLoop, hresp]
    · simpa [postLoop, hresp] using ih (idx + 1)

/-- On a non-empty list the posting loop issues at least one request. -/
lemma postLoop_cons_trace_ne_nil (m : StationsManager J S A)
    (ms : Measurement) (rest : List Measurement) (idx : Nat) :
    (m.postLoop idx (ms :: rest)).1 ≠ [] := by
  rcases hresp : m.http_client.respond idx (m.measurementRequest ms) with e | v <;>
    simp [postLoop, hresp]

/-- When the transport answers every call, the posting loop issues exactly
the requests of the list's measurements, in order, and succeeds. -/
lemma postLoop_ok (m : StationsManager J S A) (l : List Measurement) :
    ∀ idx,
      (∀ i, (hi : i < l.length) →
        ∃ v, m.http_client.respond (idx + i)
          (m.measurementRequest (l.get ⟨i, hi⟩)) = Except.ok v) →
      m.postLoop idx l = (l.map m.measurementRequest, Except.ok ()) := by
  induction l with
  | nil => intro idx _; simp [postLoop]
  | cons ms rest ih =>
    intro idx h
    obtain ⟨v, hv⟩ := h 0 (by simp)
    simp only [Nat.add_zero, List.get] at hv
    have hrest := ih (idx + 1) (fun i hi => by
      obtain ⟨w, hw⟩ := h (i + 1) (by simpa using Nat.succ_lt_succ hi)
      refine ⟨w, ?_⟩
      simpa [Nat.add_right_comm idx 1 i, Nat.add_assoc] using hw)
    simp [postLoop, hv, hrest]

/-- When the transport answers the first `k` calls and fails at call `k`,
the posting loop issues exactly the first `k + 1` requests and propagates
the transport error. -/
lemma postLoop_fail (m : StationsManager J S A) (l : List Measurement) :
    ∀ idx k (hk : k < l.length) (e : TErr),
      (∀ i, (hi : i < k) →
        ∃ v, m.http_client.respond (idx + i)
          (m.measurementRequest (l.get ⟨i, hi.trans hk⟩)) = Except.ok v) →
      m.http_client.respond (idx + k)
        (m.measurementRequest (l.get ⟨k, hk⟩)) = Except.error e →
      m.postLoop idx l =
        ((l.take (k + 1)).map m.measurementRequest,
          Except.error (PyErr.transportError e)) := by
  induction l with
  | nil => intro idx k hk e _ _; exact absurd hk (by simp)
  | cons ms rest ih =>
    intro idx k hk e hok hfail
    cases k with
    | zero =>
      simp only [Nat.add_zero, List.get] at hfail
      simp [postLoop, hfail]
    | succ k =>
      obtain ⟨v, hv⟩ := hok 0 (Nat.succ_pos k)
      simp only [Nat.add_zero, List.get] at hv
      have hrest := ih (idx + 1) k (Nat.lt_of_succ_lt_succ hk) e
        (fun i hi => by
          obtain ⟨w, hw⟩ := hok (i + 1) (Nat.succ_lt_succ hi)
          refine ⟨w, ?_⟩
          simpa [Nat.add_right_comm idx 1 i, Nat.add_assoc] using hw)
        (by simpa [Nat.add_right_comm idx 1 k, Nat.add_assoc] using hfail)
      simp [postLoop, hv, hrest]

/-- Whatever the transport answers, the network half of `get_measurements`
issues exactly the one query request. -/
lemma runMeasurementsQuery_trace (m : StationsManager J S A)
    (sv agg : String) (x y : Int) (lim : Option Int) :
    (m.runMeasurementsQuery sv agg x y lim).1 =
      [m.measurementsQuery sv agg x y lim] := by
  rcases hresp : m.http_client.respond 0 (m.measurementsQuery sv agg x y lim)
    with e | ⟨st, b⟩
  · simp [runMeasurementsQuery, hresp]
  · cases b <;> simp [runMeasurementsQuery, hresp]

/-! ### Every issued request carries the credential -/

/-- Requests issued by `get_stations` carry the credential. -/
lemma get_stations_hasAppid (m : StationsManager J S A) :
    ∀ r ∈ (m.get_stations).1, hasAppid m r := by
  intro r hr
  have hreq : r = m.listStationsRequest := by
    rcases hresp : m.http_client.respond 0 m.listStationsRequest
      with e | ⟨st, b⟩
    · simpa [get_stations, hresp] using hr
    · cases b <;> simpa [get_stations, hresp] using hr
  subst hreq
  simp [hasAppid, listStationsRequest]

/-- Requests issued by `get_station` carry the credential. -/
lemma get_station_hasAppid (m : StationsManager J S A) (id : String) :
    ∀ r ∈ (m.get_station id).1, hasAppid m r := by
  intro r hr
  have hreq : r = m.getStationRequest id := by
    rcases hresp : m.http_client.respond 0 (m.getStationRequest id)
      with e | ⟨st, b⟩
    · simpa [get_station, hresp] using hr
    · cases b <;> simpa [get_station, hresp] using hr
  subst hreq
  simp [hasAppid, getStationRequest]

/-- Requests issued by `create_station` carry the credential. -/
lemma create_station_hasAppid (m : StationsManager J S A)
    (eid nm : Option String) (la lo alt : Option Rat) :
    ∀ r ∈ (m.create_station eid nm la lo alt).1, hasAppid m r := by
  intro r hr
  rcases eid with _ | e
  · simp [create_station] at hr
  rcases nm with _ | n
  · simp [create_station] at hr
  rcases lo with _ | lov
  · simp [create_station] at hr
  rcases la with _ | lav
  · simp [create_station] at hr
  by_cases h1 : lov < -180 ∨ lov > 180
  · simp [create_station, h1] at hr
  by_cases h2 : lav < -90 ∨ lav > 90
  · simp [create_station, h1, h2] at hr
  by_cases h3 : altNegative alt = true
  · simp [create_station, h1, h2, h3] at hr
  have hreq : r = m.createStationRequest e n lav lov alt := by
    rcases hresp : m.http_client.respond 0
        (m.createStationRequest e n lav lov alt) with er | ⟨st, b⟩
    · simpa [create_station, h1, h2, h3, hresp] using hr
    · cases b <;> simpa [create_station, h1, h2, h3, hresp] using hr
  subst hreq
  simp [hasAppid, createStationRequest]

/-- Requests issued by `update_station` carry the credential. -/
lemma update_station_hasAppid (m : StationsManager J S A) (st : Station) :
    ∀ r ∈ (m.update_station st).1, hasAppid m r := by
  intro r hr
  rcases hid : st.id with _ | sid
  · simp [update_station, hid] at hr
  have hreq : r = m.updateStationRequest sid st := by
    rcases hresp : m.http_client.respond 0 (m.updateStationRequest sid st)
      with e | v <;> simpa [update_station, hid, hresp] using hr
  subst hreq
  simp [hasAppid, updateStationRequest]

/-- Requests issued by `delete_station` carry the credential. -/
lemma delete_station_hasAppid (m : StationsManager J S A) (st : Station) :
    ∀ r ∈ (m.delete_station st).1, hasAppid m r := by
  intro r hr
  rcases hid : st.id with _ | sid
  · simp [delete_station, hid] at hr
  have hreq : r = m.deleteStationRequest sid := by
    rcases hresp : m.http_client.respond 0 (m.deleteStationRequest sid)
      with e | v <;> simpa [delete_station, hid, hresp] using hr
  subst hreq
  simp [hasAppid, deleteStationRequest]

/-- Requests issued by `send_measurement` carry the credential. -/
lemma send_measurement_hasAppid (m : StationsManager J S A)
    (oms : Option Measurement) :
    ∀ r ∈ (m.send_measurement oms).1, hasAppid m r := by
  intro r hr
  rcases oms with _ | ms
  · simp [send_measurement] at hr
  rcases hsid : ms.station_id with _ | sid
  · simp [send_measurement, hsid] at hr
  have hreq : r = m.measurementRequest ms := by
    rcases hresp : m.http_client.respond 0 (m.measurementRequest ms)
      with e | v <;> simpa [send_measurement, hsid, hresp] using hr
  subst hreq
  simp [hasAppid, measurementRequest]

/-- Requests issued by `send_measurements` carry the credential. -/
lemma send_measurements_hasAppid (m : StationsManager J S A)
    (ol : Option (List Measurement)) :
    ∀ r ∈ (m.send_measurements ol).1, hasAppid m r := by
  intro r hr
  rcases ol with _ | l
  · simp [send_measurements] at hr
  by_cases hall : l.all (fun ms => ms.station_id.isSome)
  · rw [send_measurements] at hr
    simp only [hall, if_true] at hr
    obtain ⟨ms, _, hreq⟩ := m.mem_postLoop l 0 r hr
    subst hreq
    simp [hasAppid, measurementRequest]
  · simp [send_measurements, hall] at hr

/-- Requests issued by `get_measurements` carry the credential. -/
lemma get_measurements_hasAppid (m : StationsManager J S A)
    (sid agg : Option String) (f t : Option Int) (limit : Option PV) :
    ∀ r ∈ (m.get_measurements sid agg f t limit).1, hasAppid m r := by
  intro r hr
  rcases sid with _ | sv
  · simp [get_measurements] at hr
  rcases agg with _ | av
  · simp [get_measurements] at hr
  rcases f with _ | x
  · simp [get_measurements] at hr
  by_cases hx : x ≤ 0
  · simp [get_measurements, hx] at hr
  rcases t with _ | y
  · simp [get_measurements, hx] at hr
  by_cases hy : y ≤ 0
  · simp [get_measurements, hx, hy] at hr
  by_cases hyx : y < x
  · simp [get_measurements, hx, hy, hyx] at hr
  have hquery : ∀ lim, r ∈ (m.runMeasurementsQuery sv av x y lim).1 →
      hasAppid m r := by
    intro lim hmem
    rw [m.runMeasurementsQuery_trace sv av x y lim] at hmem
    have hreq := List.mem_singleton.mp hmem
    subst hreq
    simp [hasAppid, measurementsQuery]
  rcases limit with _ | pv
  · exact hquery Option.none
      (by simpa [get_measurements, hx, hy, hyx] using hr)
  rcases pv with v | nv | v | _
  · simp [get_measurements, hx, hy, hyx] at hr
  · by_cases hn : nv < 0
    · simp [get_measurements, hx, hy, hyx, hn] at hr
    · exact hquery (Option.some nv)
        (by simpa [get_measurements, hx, hy, hyx, hn] using hr)
  · simp [get_measurements, hx, hy, hyx] at hr
  · simp [get_measurements, hx, hy, hyx] at hr

/-- Requests issued by `send_buffer` carry the credential. -/
lemma send_buffer_hasAppid (m : StationsManager J S A)
    (obuf : Option (List Measurement)) :
    ∀ r ∈ (m.send_buffer obuf).1, hasAppid m r := by
  intro r hr
  rcases obuf with _ | buf
  · simp [send_buffer] at hr
  rw [send_buffer] at hr
  obtain ⟨ms, _, hreq⟩ := m.mem_postLoop buf 0 r hr
  subst hreq
  simp [hasAppid, measurementRequest]

end StationsManager

/-! ### Claim theorems -/

/-- C2: if any measurement of the list has a null `station_id`,
`send_measurements` fails with an `AssertionError` and issues no request at
all: the whole batch is checked up front. -/
theorem send_measurements_null_station_id_blocks_batch
    {J S A : Type} (m : StationsManager J S A) (l : List Measurement)
    (ms : Measurement) (hms : ms ∈ l) (hnull : ms.station_id = Option.none) :
    m.send_measurements (Option.some l) =
      ([], Except.error PyErr.assertionError) := by
  have hall : l.all (fun ms => ms.station_id.isSome) = false := by
    rw [List.all_eq_false]
    exact ⟨ms, hms, by simp [hnull]⟩
  simp [StationsManager.send_measurements, hall]

/-- Witness for C2 at a concrete batch with one null `station_id`. -/
theorem send_measurements_null_station_id_blocks_batch_witness :
    mDemo.send_measurements (Option.some [msA, msNull]) =
      ([], Except.error PyErr.assertionError) :=
  send_measurements_null_station_id_blocks_batch mDemo [msA, msNull] msNull
    (by simp) rfl

/-- C3: when the transport answers every call, `send_buffer` issues exactly
one POST per contained measurement, in buffer order, and the body of the
`i`-th request is the field map (`to_dict`) of the `i`-th measurement. -/
theorem send_buffer_posts_per_measurement_in_order
    {J S A : Type} (m : StationsManager J S A) (buf : List Measurement)
    (hresp : ∀ i, (hi : i < buf.length) →
      ∃ v, m.http_client.respond i
        (m.measurementRequest (buf.get ⟨i, hi⟩)) = Except.ok v) :
    (m.send_buffer (Option.some buf)).1 = buf.map m.measurementRequest ∧
    (m.send_buffer (Option.some buf)).1.length = buf.length ∧
    ∀ i, (hi : i < buf.length) →
      (ht : i < (m.send_buffer (Option.some buf)).1.length) →
      ((m.send_buffer (Option.some buf)).1.get ⟨i, ht⟩).method = HMethod.post ∧
      ((m.send_buffer (Option.some buf)).1.get ⟨i, ht⟩).data =
        Option.some ((buf.get ⟨i, hi⟩).to_dict) := by
  have h := m.postLoop_ok buf 0 (fun i hi => by simpa using hresp i hi)
  have htr : (m.send_buffer (Option.some buf)).1 =
      buf.map m.measurementRequest := by
    simp [StationsManager.send_buffer, h]
  refine ⟨htr, by simp [htr], ?_⟩
  intro i hi ht
  have hget : (m.send_buffer (Option.some buf)).1.get ⟨i, ht⟩ =
      m.measurementRequest (buf.get ⟨i, hi⟩) := by
    simp [htr, List.get_eq_getElem, List.getElem_map]
  simp only [List.get_eq_getElem] at hget ⊢
  simp [hget, StationsManager.measurementRequest]

/-- Witness for C3 at a concrete two-measurement buffer. -/
theorem send_buffer_posts_per_measurement_in_order_witness :
    (mDemo.send_buffer (Option.some [msA, msB])).1 =
      [msA, msB].map mDemo.measurementRequest :=
  (send_buffer_posts_per_measurement_in_order mDemo [msA, msB]
    (fun _ _ => ⟨(200, Body.items []), rfl⟩)).1

/-- C4: `send_buffer` performs no per-item `station_id` validation: a buffer
containing a measurement with null `station_id` still causes network calls
(the trace is non-empty) and never fails with the batch precondition
`AssertionError` that `send_measurements` raises. -/
theorem send_buffer_skips_station_id_validation
    {J S A : Type} (m : StationsManager J S A) (buf : List Measurement)
    (ms : Measurement) (hms : ms ∈ buf) (_hnull : ms.station_id = Option.none) :
    (m.send_buffer (Option.some buf)).1 ≠ [] ∧
    (m.send_buffer (Option.some buf)).2 ≠ Except.error PyErr.assertionError := by
  cases buf with
  | nil => simp at hms
  | cons b rest =>
    constructor
    · simpa [StationsManager.send_buffer] using
        m.postLoop_cons_trace_ne_nil b rest 0
    · simpa [StationsManager.send_buffer] using
        m.postLoop_ne_assertion (b :: rest) 0

/-- Witness for C4 at a concrete buffer holding a null-station measurement. -/
theorem send_buffer_skips_station_id_validation_witness :
    (mDemo.send_buffer (Option.some [msNull])).1 ≠ [] ∧
    (mDemo.send_buffer (Option.some [msNull])).2 ≠
      Except.error PyErr.assertionError :=
  send_buffer_skips_station_id_validation mDemo [msNull] msNull (by simp) rfl

/-- C6: after the up-front validation of `send_measurements` succeeds, each
measurement is posted independently, one request per item, strictly in list
order; when the transport fails at the `k`-th call, the `k` earlier items
have already been posted, the failing request was invoked, no further item is
posted and the transport error propagates unchanged. -/
theorem send_measurements_posts_in_order_halts_on_failure
    {J S A : Type} (m : StationsManager J S A) (l : List Measurement)
    (hall : ∀ ms ∈ l, ms.station_id.isSome) :
    ((∀ i, (hi : i < l.length) →
        ∃ v, m.http_client.respond i
          (m.measurementRequest (l.get ⟨i, hi⟩)) = Except.ok v) →
      m.send_measurements (Option.some l) =
        (l.map m.measurementRequest, Except.ok ())) ∧
    (∀ k, (hk : k < l.length) → ∀ e : TErr,
      (∀ i, (hi : i < k) →
        ∃ v, m.http_client.respond i
          (m.measurementRequest (l.get ⟨i, hi.trans hk⟩)) = Except.ok v) →
      m.http_client.respond k (m.measurementRequest (l.get ⟨k, hk⟩)) =
        Except.error e →
      m.send_measurements (Option.some l) =
        ((l.take (k + 1)).map m.measurementRequest,
          Except.error (PyErr.transportError e))) := by
  have hallb : l.all (fun ms => ms.station_id.isSome) = true := by
    rw [List.all_eq_true]; exact hall
  constructor
  · intro h
    have hpl := m.postLoop_ok l 0 (fun i hi => by simpa using h i hi)
    simp [StationsManager.send_measurements, hallb, hpl]
  · intro k hk e hok hfail
    have hpl := m.postLoop_fail l 0 k hk e
      (fun i hi => by simpa using hok i hi) (by simpa using hfail)
    simp [StationsManager.send_measurements, hallb, hpl]

/-- Witness for C6: with a transport failing at call 1, a two-measurement
batch posts the first item, invokes the failing second call and stops. -/
theorem send_measurements_posts_in_order_halts_on_failure_witness :
    mFail1.send_measurements (Option.some [msA, msB]) =
      (([msA, msB].take 2).map mFail1.measurementRequest,
        Except.error (PyErr.transportError "boom")) :=
  (send_measurements_posts_in_order_halts_on_failure mFail1 [msA, msB]
      (by decide)).2 1 (by decide) "boom"
    (fun i hi =>
      match i, hi with
      | 0, _ => ⟨(200, Body.none), rfl⟩
      | (i + 1), hi => absurd hi (by omega))
    rfl

/-- C1: `create_station` raises a `ValueError` and issues no request when
`lon` is outside `[-180, 180]`, or `lat` is outside `[-90, 90]`, or a
non-null `alt` is negative; with all values in range (boundaries included,
and `alt = 0` allowed) no range error is raised and the POST is issued. -/
theorem create_station_validates_ranges_before_network
    {J S A : Type} (m : StationsManager J S A) (eid nm : String)
    (la lo : Rat) (alt : Option Rat) :
    (((lo < -180 ∨ lo > 180) ∨ (la < -90 ∨ la > 90) ∨
        (∃ a, alt = Option.some a ∧ a < 0)) →
      (m.create_station (Option.some eid) (Option.some nm) (Option.some la)
          (Option.some lo) alt).1 = [] ∧
      ∃ msg, (m.create_station (Option.some eid) (Option.some nm)
          (Option.some la) (Option.some lo) alt).2 =
        Except.error (PyErr.valueError msg)) ∧
    (-180 ≤ lo → lo ≤ 180 → -90 ≤ la → la ≤ 90 →
      (∀ a, alt = Option.some a → 0 ≤ a) →
      (m.create_station (Option.some eid) (Option.some nm) (Option.some la)
          (Option.some lo) alt).1 =
        [m.createStationRequest eid nm la lo alt] ∧
      ∀ msg, (m.create_station (Option.some eid) (Option.some nm)
          (Option.some la) (Option.some lo) alt).2 ≠
        Except.error (PyErr.valueError msg)) := by
  constructor
  · intro h
    by_cases hlon : lo < -180 ∨ lo > 180
    · simp [StationsManager.create_station, hlon]
    · by_cases hlat : la < -90 ∨ la > 90
      · simp [StationsManager.create_station, hlon, hlat]
      · rcases h with h | h | ⟨a, ha, haneg⟩
        · exact absurd h hlon
        · exact absurd h hlat
        · simp [StationsManager.create_station, hlon, hlat, ha, haneg,
            altNegative]
  · intro h1 h2 h3 h4 h5
    have hlon : ¬(lo < -180 ∨ lo > 180) := by push_neg; exact ⟨h1, h2⟩
    have hlat : ¬(la < -90 ∨ la > 90) := by push_neg; exact ⟨h3, h4⟩
    have halt : altNegative alt = false := by
      cases alt with
      | none => rfl
      | some a => simp [altNegative, not_lt.mpr (h5 a rfl)]
    rcases hresp : m.http_client.respond 0
        (m.createStationRequest eid nm la lo alt) with e | v
    · simp [StationsManager.create_station, hlon, hlat, halt, hresp]
    · rcases v with ⟨st, b⟩
      cases b <;> simp [StationsManager.create_station, hlon, hlat, halt, hresp]

/-- Witness for C1: `lon = 200` is rejected with no request; the boundary
values `lat = -90`, `lon = 180`, `alt = 0` reach the network. -/
theorem create_station_validates_ranges_before_network_witness :
    ((mDemo.create_station (Option.some "ext1") (Option.some "stn")
        (Option.some 100) (Option.some 200) Option.none).1 = [] ∧
      ∃ msg, (mDemo.create_station (Option.some "ext1") (Option.some "stn")
          (Option.some 100) (Option.some 200) Option.none).2 =
        Except.error (PyErr.valueError msg)) ∧
    (mDemo.create_station (Option.some "ext1") (Option.some "stn")
        (Option.some (-90)) (Option.some 180) (Option.some 0)).1 =
      [mDemo.createStationRequest "ext1" "stn" (-90) 180 (Option.some 0)] :=
  ⟨(create_station_validates_ranges_before_network mDemo "ext1" "stn"
      100 200 Option.none).1 (Or.inl (Or.inr (by norm_num))),
   ((create_station_validates_ranges_before_network mDemo "ext1" "stn"
      (-90) 180 (Option.some 0)).2 (by norm_num) (by norm_num) (by norm_num)
      (by norm_num) (fun a ha => (Option.some.inj ha).le)).1⟩

/-- C7: `update_station` and `delete_station` fail with an `AssertionError`
and no request when the station's `id` is null; with a non-null `id` each
issues exactly one request and returns `None` when the transport answers. -/
theorem update_delete_require_station_id
    {J S A : Type} (m : StationsManager J S A) (st : Station) :
    (st.id = Option.none →
      m.update_station st = ([], Except.error PyErr.assertionError) ∧
      m.delete_station st = ([], Except.error PyErr.assertionError)) ∧
    (∀ sid, st.id = Option.some sid →
      (m.update_station st).1 = [m.updateStationRequest sid st] ∧
      (∀ v, m.http_client.respond 0 (m.updateStationRequest sid st) =
          Except.ok v → (m.update_station st).2 = Except.ok ()) ∧
      (m.delete_station st).1 = [m.deleteStationRequest sid] ∧
      (∀ v, m.http_client.respond 0 (m.deleteStationRequest sid) =
          Except.ok v → (m.delete_station st).2 = Except.ok ())) := by
  constructor
  · intro h
    constructor <;>
      simp [StationsManager.update_station, StationsManager.delete_station, h]
  · intro sid h
    refine ⟨?_, ?_, ?_, ?_⟩
    · rcases hresp : m.http_client.respond 0 (m.updateStationRequest sid st)
        with e | v <;> simp [StationsManager.update_station, h, hresp]
    · intro v hv
      simp [StationsManager.update_station, h, hv]
    · rcases hresp : m.http_client.respond 0 (m.deleteStationRequest sid)
        with e | v <;> simp [StationsManager.delete_station, h, hresp]
    · intro v hv
      simp [StationsManager.delete_station, h, hv]

/-- Witness for C7 at a station with a null id and one with an id. -/
theorem update_delete_require_station_id_witness :
    mDemo.update_station
        { id := Option.none, external_id := Option.some "e"
          name := Option.some "n", lat := Option.some 1, lon := Option.some 2
          alt := Option.none } =
      ([], Except.error PyErr.assertionError) ∧
    (mDemo.delete_station
        { id := Option.some "id1", external_id := Option.some "e"
          name := Option.some "n", lat := Option.some 1, lon := Option.some 2
          alt := Option.none }).1 =
      [mDemo.deleteStationRequest "id1"] :=
  ⟨((update_delete_require_station_id mDemo
      { id := Option.none, external_id := Option.some "e"
        name := Option.some "n", lat := Option.some 1, lon := Option.some 2
        alt := Option.none }).1 rfl).1,
   ((update_delete_require_station_id mDemo
      { id := Option.some "id1", external_id := Option.some "e"
        name := Option.some "n", lat := Option.some 1, lon := Option.some 2
        alt := Option.none }).2 "id1" rfl).2.2.1⟩

/-- C8: when the transport answers `get_stations` with a response list, the
result is the element-wise image of that list under the station parser, in
the same order, after exactly one request. -/
theorem get_stations_parses_each_item_in_order
    {J S A : Type} (m : StationsManager J S A) (st : Int) (data : List J)
    (h : m.http_client.respond 0 m.listStationsRequest =
      Except.ok (st, Body.items data)) :
    m.get_stations =
      ([m.listStationsRequest], Except.ok (data.map m.stations_parse_dict)) := by
  simp [StationsManager.get_stations, h]

/-- Witness for C8 at the concrete always-answering transport double. -/
theorem get_stations_parses_each_item_in_order_witness :
    mDemo.get_stations =
      ([mDemo.listStationsRequest],
        Except.ok (([] : List Nat).map mDemo.stations_parse_dict)) :=
  get_stations_parses_each_item_in_order mDemo 200 [] rfl

/-- C5: `get_measurements` raises before any network call when
`station_id`, `aggregated_on` or a timestamp is null, a timestamp is
non-positive, `to < from`, or a provided limit is not a non-negative int;
in particular `to < from` (with present, positive timestamps) raises a
`ValueError` with zero transport invocations. -/
theorem get_measurements_validates_before_network
    {J S A : Type} (m : StationsManager J S A)
    (sid agg : Option String) (f t : Option Int) (limit : Option PV) :
    ((sid = Option.none ∨ agg = Option.none ∨ f = Option.none ∨
        t = Option.none ∨ (∃ x, f = Option.some x ∧ x ≤ 0) ∨
        (∃ y, t = Option.some y ∧ y ≤ 0) ∨
        (∃ x y, f = Option.some x ∧ t = Option.some y ∧ y < x) ∨
        (∃ pv, limit = Option.some pv ∧ limitOk pv = false)) →
      (m.get_measurements sid agg f t limit).1 = [] ∧
      ∃ e, (m.get_measurements sid agg f t limit).2 = Except.error e) ∧
    (∀ (sv av : String) (x y : Int), 0 < x → 0 < y → y < x →
      m.get_measurements (Option.some sv) (Option.some av) (Option.some x)
          (Option.some y) limit =
        ([], Except.error (PyErr.valueError
          "End timestamp cant be earlier than begin timestamp"))) := by
  constructor
  · intro h
    cases sid with
    | none => simp [StationsManager.get_measurements]
    | some sv =>
    cases agg with
    | none => simp [StationsManager.get_measurements]
    | some av =>
    cases f with
    | none => simp [StationsManager.get_measurements]
    | some x =>
    by_cases hx : x ≤ 0
    · simp [StationsManager.get_measurements, hx]
    · cases t with
      | none => simp [StationsManager.get_measurements, hx]
      | some y =>
      by_cases hy : y ≤ 0
      · simp [StationsManager.get_measurements, hx, hy]
      · by_cases hyx : y < x
        · simp [StationsManager.get_measurements, hx, hy, hyx]
        · rcases h with h | h | h | h | ⟨x2, hx2, hle⟩ | ⟨y2, hy2, hle⟩ |
            ⟨x2, y2, hx2, hy2, hlt⟩ | ⟨pv, hpv, hbad⟩
          · simp at h
          · simp at h
          · simp at h
          · simp at h
          · have := Option.some.inj hx2; omega
          · have := Option.some.inj hy2; omega
          · have h1 := Option.some.inj hx2
            have h2 := Option.some.inj hy2
            omega
          · subst hpv
            cases pv with
            | i n =>
              have hn : n < 0 := by simpa [limitOk] using hbad
              simp [StationsManager.get_measurements, hx, hy, hyx, hn]
            | s v => simp [StationsManager.get_measurements, hx, hy, hyx]
            | q v => simp [StationsManager.get_measurements, hx, hy, hyx]
            | none => simp [StationsManager.get_measurements, hx, hy, hyx]
  · intro sv av x y hx hy hyx
    simp [StationsManager.get_measurements, not_le.mpr hx, not_le.mpr hy, hyx]

/-- Witness for C5: a null `station_id` and a reversed time window are both
rejected with no request at concrete inputs. -/
theorem get_measurements_validates_before_network_witness :
    ((mDemo.get_measurements Option.none (Option.some "h") (Option.some 10)
        (Option.some 20) Option.none).1 = [] ∧
      ∃ e, (mDemo.get_measurements Option.none (Option.some "h")
          (Option.some 10) (Option.some 20) Option.none).2 =
        Except.error e) ∧
    mDemo.get_measurements (Option.some "st1") (Option.some "h")
        (Option.some 100) (Option.some 50) Option.none =
      ([], Except.error (PyErr.valueError
        "End timestamp cant be earlier than begin timestamp")) :=
  ⟨(get_measurements_validates_before_network mDemo Option.none
      (Option.some "h") (Option.some 10) (Option.some 20) Option.none).1
      (Or.inl rfl),
   (get_measurements_validates_before_network mDemo (Option.some "st1")
      (Option.some "h") (Option.some 100) (Option.some 50) Option.none).2
      "st1" "h" 100 50 (by norm_num) (by norm_num) (by norm_num)⟩

/-- C10: `get_measurements` never validates the granularity value itself:
for every non-null `aggregated_on` string, with the other parameters valid,
the query request is issued and carries the value unchanged as the `type`
query parameter. -/
theorem get_measurements_granularity_unvalidated
    {J S A : Type} (m : StationsManager J S A) (sv agg : String)
    (x y : Int) (lim : Option Int) (hx : 0 < x) (hy : 0 < y) (hxy : x ≤ y)
    (hl : ∀ n, lim = Option.some n → 0 ≤ n) :
    (m.get_measurements (Option.some sv) (Option.some agg) (Option.some x)
        (Option.some y) (lim.map PV.i)).1 =
      [m.measurementsQuery sv agg x y lim] ∧
    ("type", PV.s agg) ∈ (m.measurementsQuery sv agg x y lim).params := by
  constructor
  · cases lim with
    | none =>
      have hred : m.get_measurements (Option.some sv) (Option.some agg)
          (Option.some x) (Option.some y) (Option.map PV.i Option.none) =
          m.runMeasurementsQuery sv agg x y Option.none := by
        simp [StationsManager.get_measurements, not_le.mpr hx, not_le.mpr hy,
          not_lt.mpr hxy]
      rw [hred]
      exact m.runMeasurementsQuery_trace sv agg x y Option.none
    | some n =>
      have hn : ¬ n < 0 := not_lt.mpr (hl n rfl)
      have hred : m.get_measurements (Option.some sv) (Option.some agg)
          (Option.some x) (Option.some y)
          (Option.map PV.i (Option.some n)) =
          m.runMeasurementsQuery sv agg x y (Option.some n) := by
        simp [StationsManager.get_measurements, not_le.mpr hx, not_le.mpr hy,
          not_lt.mpr hxy, hn]
      rw [hred]
      exact m.runMeasurementsQuery_trace sv agg x y (Option.some n)
  · simp [StationsManager.measurementsQuery]

/-- Witness for C10 at the granularity string "weird", which is none of the
documented values, with a provided limit. -/
theorem get_measurements_granularity_unvalidated_witness :
    (mDemo.get_measurements (Option.some "st1") (Option.some "weird")
        (Option.some 10) (Option.some 20)
        (Option.map PV.i (Option.some 5))).1 =
      [mDemo.measurementsQuery "st1" "weird" 10 20 (Option.some 5)] ∧
    ("type", PV.s "weird") ∈
      (mDemo.measurementsQuery "st1" "weird" 10 20 (Option.some 5)).params :=
  get_measurements_granularity_unvalidated mDemo "st1" "weird" 10 20
    (Option.some 5) (by norm_num) (by norm_num) (by norm_num)
    (by intro n hn; injection hn with h; omega)

/-- C9: every network request issued by every public operation of the
manager carries the manager's API credential as the `appid` query
parameter. -/
theorem every_request_carries_appid
    {J S A : Type} (m : StationsManager J S A) :
    (∀ r ∈ (m.get_stations).1, hasAppid m r) ∧
    (∀ id, ∀ r ∈ (m.get_station id).1, hasAppid m r) ∧
    (∀ eid nm la lo alt,
      ∀ r ∈ (m.create_station eid nm la lo alt).1, hasAppid m r) ∧
    (∀ st, ∀ r ∈ (m.update_station st).1, hasAppid m r) ∧
    (∀ st, ∀ r ∈ (m.delete_station st).1, hasAppid m r) ∧
    (∀ oms, ∀ r ∈ (m.send_measurement oms).1, hasAppid m r) ∧
    (∀ ol, ∀ r ∈ (m.send_measurements ol).1, hasAppid m r) ∧
    (∀ sid agg f t lim,
      ∀ r ∈ (m.get_measurements sid agg f t lim).1, hasAppid m r) ∧
    (∀ obuf, ∀ r ∈ (m.send_buffer obuf).1, hasAppid m r) :=
  ⟨m.get_stations_hasAppid,
   fun id => m.get_station_hasAppid id,
   fun eid nm la lo alt => m.create_station_hasAppid eid nm la lo alt,
   fun st => m.update_station_hasAppid st,
   fun st => m.delete_station_hasAppid st,
   fun oms => m.send_measurement_hasAppid oms,
   fun ol => m.send_measurements_hasAppid ol,
   fun sid agg f t lim => m.get_measurements_hasAppid sid agg f t lim,
   fun obuf => m.send_buffer_hasAppid obuf⟩

/-- Witness for C9: the one request of a concrete `get_stations` call
carries the credential. -/
theorem every_request_carries_appid_witness :
    hasAppid mDemo mDemo.listStationsRequest :=
  (every_request_carries_appid mDemo).1 mDemo.listStationsRequest
    (by simp [StationsManager.get_stations, mDemo, okTransport])

end Pyowm
